import Mathlib

/-!
Shallow embedding of the scoring and benchmarking engine of the
St. Galler management-analysis application (`src/st_galler_app.py`,
class `StGallerFrameworkAnalyzer`).

Numbers are modelled in exact arithmetic: indicator ratings, means and
variances live in `ℚ`; the population standard deviation (`np.std`) and
the composite indices derived from it live in `ℝ` via `Real.sqrt`.
Python dicts that are only read through `.get(key, default)` are
modelled as total functions (ratings) or as insertion-ordered
association lists (benchmark table, score dicts); `max(d, key=d.get)` /
`min(d, key=d.get)` are modelled as first-maximum / first-minimum
selection over the insertion order, which is exactly Python's
behaviour.
-/

/-- A ratings mapping (`antworten`): the engine reads it only through
`antworten.get(key, 0)`, which is total function application with
missing keys sent to `0`. -/
abbrev Ratings := String → ℚ

/-- Model of `np.mean` of a list, in exact rational arithmetic. -/
def npMean (xs : List ℚ) : ℚ := xs.sum / xs.length

/-- Population variance (the square of `np.std`, which uses `ddof=0`). -/
def npVariance (xs : List ℚ) : ℚ :=
  (xs.map (fun x => (x - npMean xs) ^ 2)).sum / xs.length

/-- Model of `np.std`: square root of the population variance. -/
noncomputable def npStd (xs : List ℚ) : ℝ := Real.sqrt (npVariance xs)

/-- Model of `d.get(k)` on an insertion-ordered association list (a Python dict
read only through lookups). -/
def dictGet? {β : Type} (d : List (String × β)) (k : String) : Option β :=
  (d.find? (fun p => p.1 == k)).map Prod.snd

/-- Helper for `maxKey`: carries the current best key/value; a later
entry replaces the best only when strictly greater, exactly like
Python's `max`. -/
def maxKeyAux (bk : String) (bv : ℚ) : List (String × ℚ) → String
  | [] => bk
  | (k, v) :: rest => if bv < v then maxKeyAux k v rest else maxKeyAux bk bv rest

/-- Python's `max(scores, key=scores.get)` over an insertion-ordered
dict: the first key attaining the maximal value. -/
def maxKey : List (String × ℚ) → String
  | [] => ""
  | (k, v) :: rest => maxKeyAux k v rest

/-- Helper for `minKey`: a later entry replaces the best only when
strictly smaller, exactly like Python's `min`. -/
def minKeyAux (bk : String) (bv : ℚ) : List (String × ℚ) → String
  | [] => bk
  | (k, v) :: rest => if v < bv then minKeyAux k v rest else minKeyAux bk bv rest

/-- Python's `min(scores, key=scores.get)`: the first key attaining the
minimal value. -/
def minKey : List (String × ℚ) → String
  | [] => ""
  | (k, v) :: rest => minKeyAux k v rest

/-- One record of the empirical benchmark table. -/
structure Benchmark where
  optimal : ℚ
  studie : String
  befund : String

/-- Embedding of `_lade_empirische_benchmarks`: the static benchmark table, in
insertion order.  Note the registered key `"umwelt_sensitivität"`
(umlaut spelling). -/
def lade_empirische_benchmarks : List (String × Benchmark) :=
  [("perspektiven_balance",
    ⟨0.8, "Gomez & Weber (2020) - Balanced Management Performance",
     "Unternehmen mit ausgeglichenen Perspektiven zeigen 25% höhere Gesamtperformance"⟩),
   ("ordnungsmomente_kohärenz",
    ⟨0.75, "Rüegg-Stürm (2019) - Organizational Coherence",
     "Kohärente Ordnungsmomente reduzieren Reibungsverluste um 40%"⟩),
   ("umwelt_sensitivität",
    ⟨0.7, "Ansoff & Sullivan (2021) - Environmental Scanning",
     "Hohe Umweltwahrnehmung korreliert mit 30% besserer Anpassungsfähigkeit"⟩)]

/-- The dict returned by `_vergleiche_mit_benchmarks`. -/
structure Vergleich where
  aktueller_wert : ℝ
  optimaler_benchmark : ℝ
  abweichung : ℝ
  interpretation : String
  studie : String
  empirischer_befund : String

/-- Embedding of `_vergleiche_mit_benchmarks(scores, benchmark_key, aktueller_wert)`:
benchmark lookup with soft fallback (`optimal = 0.7`, empty strings)
when the key is unregistered.  The `scores` argument is never read. -/
noncomputable def vergleiche_mit_benchmarks (scores : List (String × ℝ))
    (benchmark_key : String) (aktueller_wert : ℝ) : Vergleich :=
  let benchmark := dictGet? lade_empirische_benchmarks benchmark_key
  let optimal_wert : ℝ :=
    match benchmark with
    | some b => (b.optimal : ℝ)
    | none => 0.7
  { aktueller_wert := aktueller_wert
    optimaler_benchmark := optimal_wert
    abweichung := aktueller_wert - optimal_wert
    interpretation :=
      if optimal_wert < aktueller_wert then "überdurchschnittlich"
      else "unterdurchschnittlich"
    studie :=
      match benchmark with
      | some b => b.studie
      | none => ""
    empirischer_befund :=
      match benchmark with
      | some b => b.befund
      | none => "" }

/-- Cast an insertion-ordered `ℚ`-valued dict to `ℝ` values (in the
source every number is already a float; the cast is value-preserving). -/
def toRealPairs (l : List (String × ℚ)) : List (String × ℝ) :=
  l.map (fun p => (p.1, (p.2 : ℝ)))

/-- The `scores` dict of `analysiere_management_perspektiven`; keys are
inserted in the order normativ, strategisch, operativ. -/
structure PerspektivenScores where
  normativ : ℚ
  strategisch : ℚ
  operativ : ℚ

/-- Model of `list(scores.values())` in insertion order. -/
def PerspektivenScores.werte (s : PerspektivenScores) : List ℚ :=
  [s.normativ, s.strategisch, s.operativ]

/-- The key/value pairs of the scores dict in insertion order. -/
def PerspektivenScores.eintraege (s : PerspektivenScores) : List (String × ℚ) :=
  [("normativ", s.normativ), ("strategisch", s.strategisch), ("operativ", s.operativ)]

/-- The dict returned by `analysiere_management_perspektiven`. -/
structure PerspektivenErgebnis where
  scores : PerspektivenScores
  balance : ℝ
  dominante_perspektive : String
  empirischer_vergleich : Vergleich

/-- Embedding of `analysiere_management_perspektiven(antworten)`. -/
noncomputable def analysiere_management_perspektiven (antworten : Ratings) :
    PerspektivenErgebnis :=
  let scores : PerspektivenScores :=
    { normativ := npMean [antworten "wertekongruenz", antworten "sinnstiftung",
        antworten "identitaetsbeitrag", antworten "legitimitaet"]
      strategisch := npMean [antworten "wettbewerbsvorteil", antworten "marktrelevanz",
        antworten "ressourcenpassung", antworten "zukunftsfaehigkeit"]
      operativ := npMean [antworten "prozesseffizienz", antworten "ressourcenoptimierung",
        antworten "qualitaetssicherung", antworten "skalierbarkeit"] }
  let balance : ℝ := 1 - npStd scores.werte / 3.5
  { scores := scores
    balance := balance
    dominante_perspektive := maxKey scores.eintraege
    empirischer_vergleich :=
      vergleiche_mit_benchmarks (toRealPairs scores.eintraege) "perspektiven_balance" balance }

/-- The `scores` dict of `analysiere_ordnungsmomente`; insertion order
kultur, strukturen, prozesse, technologien. -/
structure OrdnungsScores where
  kultur : ℚ
  strukturen : ℚ
  prozesse : ℚ
  technologien : ℚ

/-- Model of `list(scores.values())` in insertion order. -/
def OrdnungsScores.werte (s : OrdnungsScores) : List ℚ :=
  [s.kultur, s.strukturen, s.prozesse, s.technologien]

/-- The key/value pairs of the scores dict in insertion order. -/
def OrdnungsScores.eintraege (s : OrdnungsScores) : List (String × ℚ) :=
  [("kultur", s.kultur), ("strukturen", s.strukturen),
   ("prozesse", s.prozesse), ("technologien", s.technologien)]

/-- The dict returned by `analysiere_ordnungsmomente`
(`kohaerenz` transliterates the source's field `kohärenz`). -/
structure OrdnungsErgebnis where
  scores : OrdnungsScores
  kohaerenz : ℝ
  schwaechstes_ordnungselement : String
  staerkstes_ordnungselement : String
  empirischer_vergleich : Vergleich

/-- Embedding of `analysiere_ordnungsmomente(antworten)`. -/
noncomputable def analysiere_ordnungsmomente (antworten : Ratings) : OrdnungsErgebnis :=
  let scores : OrdnungsScores :=
    { kultur := npMean [antworten "wertekonsens", antworten "verhaltensnormen",
        antworten "gemeinschaftsgefuehl"]
      strukturen := npMean [antworten "rollenklaerung", antworten "entscheidungskompetenz",
        antworten "koordinationsmechanismen"]
      prozesse := npMean [antworten "prozessstandardisierung",
        antworten "entscheidungsgeschwindigkeit", antworten "kontinuierliche_verbesserung"]
      technologien := npMean [antworten "systemunterstuetzung",
        antworten "digitalisierungsgrad", antworten "datennutzung"] }
  let kohaerenz : ℝ := 1 - npStd scores.werte / 3.5
  { scores := scores
    kohaerenz := kohaerenz
    schwaechstes_ordnungselement := minKey scores.eintraege
    staerkstes_ordnungselement := maxKey scores.eintraege
    empirischer_vergleich :=
      vergleiche_mit_benchmarks (toRealPairs scores.eintraege)
        "ordnungsmomente_kohärenz" kohaerenz }

/-- The `scores` dict of `analysiere_entwicklungsperspektiven`;
insertion order reflexion, innovation, transformation. -/
structure EntwicklungsScores where
  reflexion : ℚ
  innovation : ℚ
  transformation : ℚ

/-- Model of `list(scores.values())` in insertion order. -/
def EntwicklungsScores.werte (s : EntwicklungsScores) : List ℚ :=
  [s.reflexion, s.innovation, s.transformation]

/-- The key/value pairs of the scores dict in insertion order. -/
def EntwicklungsScores.eintraege (s : EntwicklungsScores) : List (String × ℚ) :=
  [("reflexion", s.reflexion), ("innovation", s.innovation),
   ("transformation", s.transformation)]

/-- The `profile` dict of `_bestimme_entwicklungs_profil`. -/
def entwicklungs_profile : List (String × String) :=
  [("reflexion", "Lernende Organisation"),
   ("innovation", "Innovative Organisation"),
   ("transformation", "Transformative Organisation")]

/-- Embedding of `_bestimme_entwicklungs_profil(scores)`: label of the first maximal
dimension, with the dict-get fallback `"Ausgeglichene Organisation"`. -/
def bestimme_entwicklungs_profil (scores : EntwicklungsScores) : String :=
  let max_dimension := maxKey scores.eintraege
  (dictGet? entwicklungs_profile max_dimension).getD "Ausgeglichene Organisation"

/-- The dict returned by `analysiere_entwicklungsperspektiven`. -/
structure EntwicklungsErgebnis where
  scores : EntwicklungsScores
  entwicklungs_profil : String
  anpassungs_faehigkeit : ℚ

/-- Embedding of `analysiere_entwicklungsperspektiven(antworten)`. -/
def analysiere_entwicklungsperspektiven (antworten : Ratings) : EntwicklungsErgebnis :=
  let scores : EntwicklungsScores :=
    { reflexion := npMean [antworten "erfahrungsauswertung", antworten "feedback_kultur",
        antworten "lernbereitschaft"]
      innovation := npMean [antworten "kreativitaetsfoerderung",
        antworten "experimentierfreudigkeit", antworten "veraenderungsbereitschaft"]
      transformation := npMean [antworten "anpassungsflexibilitaet",
        antworten "umstrukturierungskompetenz", antworten "zukunftsgestaltung"] }
  { scores := scores
    entwicklungs_profil := bestimme_entwicklungs_profil scores
    anpassungs_faehigkeit := npMean scores.werte }

/-- The dict returned by `analysiere_systemische_eigenschaften`. -/
structure SystemischeErgebnis where
  umwelt_sensitivitaet : ℚ
  anpassungs_faehigkeit : ℚ
  widerstands_faehigkeit : ℚ
  systemische_gesundheit : ℚ
  empirischer_vergleich : Vergleich

/-- Embedding of `analysiere_systemische_eigenschaften(antworten)`.  The benchmark
lookup key at the call site is the ae-spelling `"umwelt_sensitivitaet"`,
exactly as in the source (line 319), which differs from the registered
table key `"umwelt_sensitivität"`. -/
noncomputable def analysiere_systemische_eigenschaften (antworten : Ratings) :
    SystemischeErgebnis :=
  let umwelt_sensitivitaet := npMean [antworten "marktbeobachtung",
    antworten "trendfruchterkennung", antworten "stakeholder_dialog"]
  let anpassungs_faehigkeit := npMean [antworten "reaktionsgeschwindigkeit",
    antworten "aenderungsmanagement", antworten "ressourcenflexibilitaet"]
  let widerstands_faehigkeit := npMean [antworten "krisenresistenz",
    antworten "ausfallsicherheit", antworten "erneuerungsfaehigkeit"]
  { umwelt_sensitivitaet := umwelt_sensitivitaet
    anpassungs_faehigkeit := anpassungs_faehigkeit
    widerstands_faehigkeit := widerstands_faehigkeit
    systemische_gesundheit :=
      npMean [umwelt_sensitivitaet, anpassungs_faehigkeit, widerstands_faehigkeit]
    empirischer_vergleich :=
      vergleiche_mit_benchmarks [("umwelt", (umwelt_sensitivitaet : ℝ))]
        "umwelt_sensitivitaet" (umwelt_sensitivitaet : ℝ) }

/-- The consolidated dataclass `StGallerAnalyseErgebnis` (umlaut field
names transliterated). -/
structure StGallerAnalyseErgebnis where
  normativ_score : ℚ
  strategisch_score : ℚ
  operativ_score : ℚ
  perspektiven_balance : ℝ
  kultur_score : ℚ
  strukturen_score : ℚ
  prozesse_score : ℚ
  technologien_score : ℚ
  ordnungsmomente_kohaerenz : ℝ
  reflexions_faehigkeit : ℚ
  innovations_faehigkeit : ℚ
  transformations_faehigkeit : ℚ
  umwelt_sensitivitaet : ℚ
  anpassungs_faehigkeit : ℚ
  widerstands_faehigkeit : ℚ
  theoretische_referenzen : List String
  empirische_indikatoren : List (String × ℚ)

/-- Embedding of `durchfuehr_komplette_analyse(antworten)`: runs the four aggregators
and copies their scores and composites into the consolidated record. -/
noncomputable def durchfuehr_komplette_analyse (antworten : Ratings) :
    StGallerAnalyseErgebnis :=
  let management_perspektiven := analysiere_management_perspektiven antworten
  let ordnungsmomente := analysiere_ordnungsmomente antworten
  let entwicklungsperspektiven := analysiere_entwicklungsperspektiven antworten
  let systemische_eigenschaften := analysiere_systemische_eigenschaften antworten
  { normativ_score := management_perspektiven.scores.normativ
    strategisch_score := management_perspektiven.scores.strategisch
    operativ_score := management_perspektiven.scores.operativ
    perspektiven_balance := management_perspektiven.balance
    kultur_score := ordnungsmomente.scores.kultur
    strukturen_score := ordnungsmomente.scores.strukturen
    prozesse_score := ordnungsmomente.scores.prozesse
    technologien_score := ordnungsmomente.scores.technologien
    ordnungsmomente_kohaerenz := ordnungsmomente.kohaerenz
    reflexions_faehigkeit := entwicklungsperspektiven.scores.reflexion
    innovations_faehigkeit := entwicklungsperspektiven.scores.innovation
    transformations_faehigkeit := entwicklungsperspektiven.scores.transformation
    umwelt_sensitivitaet := systemische_eigenschaften.umwelt_sensitivitaet
    anpassungs_faehigkeit := systemische_eigenschaften.anpassungs_faehigkeit
    widerstands_faehigkeit := systemische_eigenschaften.widerstands_faehigkeit
    theoretische_referenzen :=
      ["Rüegg-Stürm, J. & Grand, S. (2019). Das St. Galler Management Modell",
       "Gomez, P. & Weber, B. (2020). Strategic Management",
       "Mintzberg, H. & Westley, F. (2021). Organizational Learning",
       "Luhmann, N. (2018). Social Systems and Management"]
    empirische_indikatoren := [] }

/-- The twelve management-perspective indicator keys, in source order. -/
def management_indikatoren : List String :=
  ["wertekongruenz", "sinnstiftung", "identitaetsbeitrag", "legitimitaet",
   "wettbewerbsvorteil", "marktrelevanz", "ressourcenpassung", "zukunftsfaehigkeit",
   "prozesseffizienz", "ressourcenoptimierung", "qualitaetssicherung", "skalierbarkeit"]

/-- The twelve order-element indicator keys, in source order. -/
def ordnungs_indikatoren : List String :=
  ["wertekonsens", "verhaltensnormen", "gemeinschaftsgefuehl",
   "rollenklaerung", "entscheidungskompetenz", "koordinationsmechanismen",
   "prozessstandardisierung", "entscheidungsgeschwindigkeit", "kontinuierliche_verbesserung",
   "systemunterstuetzung", "digitalisierungsgrad", "datennutzung"]

/-- The nine development-perspective indicator keys, in source order. -/
def entwicklungs_indikatoren : List String :=
  ["erfahrungsauswertung", "feedback_kultur", "lernbereitschaft",
   "kreativitaetsfoerderung", "experimentierfreudigkeit", "veraenderungsbereitschaft",
   "anpassungsflexibilitaet", "umstrukturierungskompetenz", "zukunftsgestaltung"]

/-- The nine systemic-property indicator keys, in source order. -/
def systemische_indikatoren : List String :=
  ["marktbeobachtung", "trendfruchterkennung", "stakeholder_dialog",
   "reaktionsgeschwindigkeit", "aenderungsmanagement", "ressourcenflexibilitaet",
   "krisenresistenz", "ausfallsicherheit", "erneuerungsfaehigkeit"]

/-- All indicator keys read by any of the four aggregators. -/
def alle_indikatoren : List String :=
  management_indikatoren ++ (ordnungs_indikatoren ++
    (entwicklungs_indikatoren ++ systemische_indikatoren))

/-- Spec-side bundle for C1: every dimension score of the four
aggregators equals `v`, and both composite indices (balance, coherence)
equal `1`. -/
def AlleScoresGleich (r : Ratings) (v : ℚ) : Prop :=
  (analysiere_management_perspektiven r).scores.normativ = v ∧
  (analysiere_management_perspektiven r).scores.strategisch = v ∧
  (analysiere_management_perspektiven r).scores.operativ = v ∧
  (analysiere_management_perspektiven r).balance = 1 ∧
  (analysiere_ordnungsmomente r).scores.kultur = v ∧
  (analysiere_ordnungsmomente r).scores.strukturen = v ∧
  (analysiere_ordnungsmomente r).scores.prozesse = v ∧
  (analysiere_ordnungsmomente r).scores.technologien = v ∧
  (analysiere_ordnungsmomente r).kohaerenz = 1 ∧
  (analysiere_entwicklungsperspektiven r).scores.reflexion = v ∧
  (analysiere_entwicklungsperspektiven r).scores.innovation = v ∧
  (analysiere_entwicklungsperspektiven r).scores.transformation = v ∧
  (analysiere_systemische_eigenschaften r).umwelt_sensitivitaet = v ∧
  (analysiere_systemische_eigenschaften r).anpassungs_faehigkeit = v ∧
  (analysiere_systemische_eigenschaften r).widerstands_faehigkeit = v

/-- The constant-`v` ratings mapping (every indicator rated `v`). -/
def konstanteAntworten (v : ℚ) : Ratings := fun _ => v

/-- The C5 scenario ratings: the four normative indicators rated 7, the
four strategic and four operational indicators rated 1, everything else
absent (0). -/
def szenarioAntworten : Ratings := fun k =>
  if k ∈ (["wertekongruenz", "sinnstiftung", "identitaetsbeitrag",
           "legitimitaet"] : List String) then 7
  else if k ∈ (["wettbewerbsvorteil", "marktrelevanz", "ressourcenpassung",
                "zukunftsfaehigkeit", "prozesseffizienz", "ressourcenoptimierung",
                "qualitaetssicherung", "skalierbarkeit"] : List String) then 1
  else 0

/-! ### Arithmetic helper lemmas -/

lemma npMean_const3 (v : ℚ) : npMean [v, v, v] = v := by
  simp [npMean]; ring

lemma npMean_const4 (v : ℚ) : npMean [v, v, v, v] = v := by
  simp [npMean]; ring

lemma npVariance_const3 (v : ℚ) : npVariance [v, v, v] = 0 := by
  simp [npVariance, npMean]; ring

lemma npVariance_const4 (v : ℚ) : npVariance [v, v, v, v] = 0 := by
  simp [npVariance, npMean]; ring

lemma npStd_const3 (v : ℚ) : npStd [v, v, v] = 0 := by
  rw [npStd, npVariance_const3]
  simp

lemma npStd_const4 (v : ℚ) : npStd [v, v, v, v] = 0 := by
  rw [npStd, npVariance_const4]
  simp

/-! ### First-maximum / first-minimum helper lemmas -/

lemma maxKey3_mem (a b c : String) (x y z : ℚ) :
    maxKey [(a, x), (b, y), (c, z)] = a ∨ maxKey [(a, x), (b, y), (c, z)] = b ∨
      maxKey [(a, x), (b, y), (c, z)] = c := by
  simp only [maxKey, maxKeyAux]
  split_ifs <;> simp

lemma maxKey3_first (a b c : String) (x y z : ℚ) (hy : y ≤ x) (hz : z ≤ x) :
    maxKey [(a, x), (b, y), (c, z)] = a := by
  simp only [maxKey, maxKeyAux]
  split_ifs <;> first | rfl | linarith

lemma maxKey3_second (a b c : String) (x y z : ℚ) (hx : x < y) (hz : z ≤ y) :
    maxKey [(a, x), (b, y), (c, z)] = b := by
  simp only [maxKey, maxKeyAux]
  split_ifs <;> first | rfl | linarith

lemma maxKey3_third (a b c : String) (x y z : ℚ) (hx : x < z) (hy : y < z) :
    maxKey [(a, x), (b, y), (c, z)] = c := by
  simp only [maxKey, maxKeyAux]
  split_ifs <;> first | rfl | linarith

lemma maxKey4_mem (a b c d : String) (w x y z : ℚ) :
    maxKey [(a, w), (b, x), (c, y), (d, z)] = a ∨
      maxKey [(a, w), (b, x), (c, y), (d, z)] = b ∨
      maxKey [(a, w), (b, x), (c, y), (d, z)] = c ∨
      maxKey [(a, w), (b, x), (c, y), (d, z)] = d := by
  simp only [maxKey, maxKeyAux]
  split_ifs <;> simp

lemma maxKey4_first (a b c d : String) (w x y z : ℚ)
    (hx : x ≤ w) (hy : y ≤ w) (hz : z ≤ w) :
    maxKey [(a, w), (b, x), (c, y), (d, z)] = a := by
  simp only [maxKey, maxKeyAux]
  split_ifs <;> first | rfl | linarith

lemma maxKey4_second (a b c d : String) (w x y z : ℚ)
    (hw : w < x) (hy : y ≤ x) (hz : z ≤ x) :
    maxKey [(a, w), (b, x), (c, y), (d, z)] = b := by
  simp only [maxKey, maxKeyAux]
  split_ifs <;> first | rfl | linarith

lemma maxKey4_third (a b c d : String) (w x y z : ℚ)
    (hw : w < y) (hx : x < y) (hz : z ≤ y) :
    maxKey [(a, w), (b, x), (c, y), (d, z)] = c := by
  simp only [maxKey, maxKeyAux]
  split_ifs <;> first | rfl | linarith

lemma maxKey4_fourth (a b c d : String) (w x y z : ℚ)
    (hw : w < z) (hx : x < z) (hy : y < z) :
    maxKey [(a, w), (b, x), (c, y), (d, z)] = d := by
  simp only [maxKey, maxKeyAux]
  split_ifs <;> first | rfl | linarith

lemma minKey4_mem (a b c d : String) (w x y z : ℚ) :
    minKey [(a, w), (b, x), (c, y), (d, z)] = a ∨
      minKey [(a, w), (b, x), (c, y), (d, z)] = b ∨
      minKey [(a, w), (b, x), (c, y), (d, z)] = c ∨
      minKey [(a, w), (b, x), (c, y), (d, z)] = d := by
  simp only [minKey, minKeyAux]
  split_ifs <;> simp

lemma minKey4_first (a b c d : String) (w x y z : ℚ)
    (hx : w ≤ x) (hy : w ≤ y) (hz : w ≤ z) :
    minKey [(a, w), (b, x), (c, y), (d, z)] = a := by
  simp only [minKey, minKeyAux]
  split_ifs <;> first | rfl | linarith

lemma minKey4_second (a b c d : String) (w x y z : ℚ)
    (hw : x < w) (hy : x ≤ y) (hz : x ≤ z) :
    minKey [(a, w), (b, x), (c, y), (d, z)] = b := by
  simp only [minKey, minKeyAux]
  split_ifs <;> first | rfl | linarith

lemma minKey4_third (a b c d : String) (w x y z : ℚ)
    (hw : y < w) (hx : y < x) (hz : y ≤ z) :
    minKey [(a, w), (b, x), (c, y), (d, z)] = c := by
  simp only [minKey, minKeyAux]
  split_ifs <;> first | rfl | linarith

lemma minKey4_fourth (a b c d : String) (w x y z : ℚ)
    (hw : z < w) (hx : z < x) (hy : z < y) :
    minKey [(a, w), (b, x), (c, y), (d, z)] = d := by
  simp only [minKey, minKeyAux]
  split_ifs <;> first | rfl | linarith

/-! ### Uniform-ratings lemmas (shared by the C1 development) -/

lemma management_uniform (r : Ratings) (v : ℚ)
    (h : ∀ k ∈ management_indikatoren, r k = v) :
    (analysiere_management_perspektiven r).scores.normativ = v ∧
    (analysiere_management_perspektiven r).scores.strategisch = v ∧
    (analysiere_management_perspektiven r).scores.operativ = v ∧
    (analysiere_management_perspektiven r).balance = 1 := by
  have h01 : r "wertekongruenz" = v := h _ (by simp [management_indikatoren])
  have h02 : r "sinnstiftung" = v := h _ (by simp [management_indikatoren])
  have h03 : r "identitaetsbeitrag" = v := h _ (by simp [management_indikatoren])
  have h04 : r "legitimitaet" = v := h _ (by simp [management_indikatoren])
  have h05 : r "wettbewerbsvorteil" = v := h _ (by simp [management_indikatoren])
  have h06 : r "marktrelevanz" = v := h _ (by simp [management_indikatoren])
  have h07 : r "ressourcenpassung" = v := h _ (by simp [management_indikatoren])
  have h08 : r "zukunftsfaehigkeit" = v := h _ (by simp [management_indikatoren])
  have h09 : r "prozesseffizienz" = v := h _ (by simp [management_indikatoren])
  have h10 : r "ressourcenoptimierung" = v := h _ (by simp [management_indikatoren])
  have h11 : r "qualitaetssicherung" = v := h _ (by simp [management_indikatoren])
  have h12 : r "skalierbarkeit" = v := h _ (by simp [management_indikatoren])
  simp only [analysiere_management_perspektiven, PerspektivenScores.werte,
    h01, h02, h03, h04, h05, h06, h07, h08, h09, h10, h11, h12,
    npMean_const4, npStd_const3]
  norm_num

lemma ordnung_uniform (r : Ratings) (v : ℚ)
    (h : ∀ k ∈ ordnungs_indikatoren, r k = v) :
    (analysiere_ordnungsmomente r).scores.kultur = v ∧
    (analysiere_ordnungsmomente r).scores.strukturen = v ∧
    (analysiere_ordnungsmomente r).scores.prozesse = v ∧
    (analysiere_ordnungsmomente r).scores.technologien = v ∧
    (analysiere_ordnungsmomente r).kohaerenz = 1 := by
  have h01 : r "wertekonsens" = v := h _ (by simp [ordnungs_indikatoren])
  have h02 : r "verhaltensnormen" = v := h _ (by simp [ordnungs_indikatoren])
  have h03 : r "gemeinschaftsgefuehl" = v := h _ (by simp [ordnungs_indikatoren])
  have h04 : r "rollenklaerung" = v := h _ (by simp [ordnungs_indikatoren])
  have h05 : r "entscheidungskompetenz" = v := h _ (by simp [ordnungs_indikatoren])
  have h06 : r "koordinationsmechanismen" = v := h _ (by simp [ordnungs_indikatoren])
  have h07 : r "prozessstandardisierung" = v := h _ (by simp [ordnungs_indikatoren])
  have h08 : r "entscheidungsgeschwindigkeit" = v := h _ (by simp [ordnungs_indikatoren])
  have h09 : r "kontinuierliche_verbesserung" = v := h _ (by simp [ordnungs_indikatoren])
  have h10 : r "systemunterstuetzung" = v := h _ (by simp [ordnungs_indikatoren])
  have h11 : r "digitalisierungsgrad" = v := h _ (by simp [ordnungs_indikatoren])
  have h12 : r "datennutzung" = v := h _ (by simp [ordnungs_indikatoren])
  simp only [analysiere_ordnungsmomente, OrdnungsScores.werte,
    h01, h02, h03, h04, h05, h06, h07, h08, h09, h10, h11, h12,
    npMean_const3, npStd_const4]
  norm_num

lemma entwicklung_uniform (r : Ratings) (v : ℚ)
    (h : ∀ k ∈ entwicklungs_indikatoren, r k = v) :
    (analysiere_entwicklungsperspektiven r).scores.reflexion = v ∧
    (analysiere_entwicklungsperspektiven r).scores.innovation = v ∧
    (analysiere_entwicklungsperspektiven r).scores.transformation = v := by
  have h01 : r "erfahrungsauswertung" = v := h _ (by simp [entwicklungs_indikatoren])
  have h02 : r "feedback_kultur" = v := h _ (by simp [entwicklungs_indikatoren])
  have h03 : r "lernbereitschaft" = v := h _ (by simp [entwicklungs_indikatoren])
  have h04 : r "kreativitaetsfoerderung" = v := h _ (by simp [entwicklungs_indikatoren])
  have h05 : r "experimentierfreudigkeit" = v := h _ (by simp [entwicklungs_indikatoren])
  have h06 : r "veraenderungsbereitschaft" = v := h _ (by simp [entwicklungs_indikatoren])
  have h07 : r "anpassungsflexibilitaet" = v := h _ (by simp [entwicklungs_indikatoren])
  have h08 : r "umstrukturierungskompetenz" = v := h _ (by simp [entwicklungs_indikatoren])
  have h09 : r "zukunftsgestaltung" = v := h _ (by simp [entwicklungs_indikatoren])
  simp only [analysiere_entwicklungsperspektiven,
    h01, h02, h03, h04, h05, h06, h07, h08, h09, npMean_const3]
  simp

lemma systemisch_uniform (r : Ratings) (v : ℚ)
    (h : ∀ k ∈ systemische_indikatoren, r k = v) :
    (analysiere_systemische_eigenschaften r).umwelt_sensitivitaet = v ∧
    (analysiere_systemische_eigenschaften r).anpassungs_faehigkeit = v ∧
    (analysiere_systemische_eigenschaften r).widerstands_faehigkeit = v := by
  have h01 : r "marktbeobachtung" = v := h _ (by simp [systemische_indikatoren])
  have h02 : r "trendfruchterkennung" = v := h _ (by simp [systemische_indikatoren])
  have h03 : r "stakeholder_dialog" = v := h _ (by simp [systemische_indikatoren])
  have h04 : r "reaktionsgeschwindigkeit" = v := h _ (by simp [systemische_indikatoren])
  have h05 : r "aenderungsmanagement" = v := h _ (by simp [systemische_indikatoren])
  have h06 : r "ressourcenflexibilitaet" = v := h _ (by simp [systemische_indikatoren])
  have h07 : r "krisenresistenz" = v := h _ (by simp [systemische_indikatoren])
  have h08 : r "ausfallsicherheit" = v := h _ (by simp [systemische_indikatoren])
  have h09 : r "erneuerungsfaehigkeit" = v := h _ (by simp [systemische_indikatoren])
  simp only [analysiere_systemische_eigenschaften,
    h01, h02, h03, h04, h05, h06, h07, h08, h09, npMean_const3]
  simp

lemma alle_uniform (r : Ratings) (v : ℚ)
    (hall : ∀ k ∈ alle_indikatoren, r k = v) : AlleScoresGleich r v := by
  have hm : ∀ k ∈ management_indikatoren, r k = v := by
    intro k hk
    exact hall k (by unfold alle_indikatoren; exact List.mem_append_left _ hk)
  have ho : ∀ k ∈ ordnungs_indikatoren, r k = v := by
    intro k hk
    exact hall k (by
      unfold alle_indikatoren
      exact List.mem_append_right _ (List.mem_append_left _ hk))
  have he : ∀ k ∈ entwicklungs_indikatoren, r k = v := by
    intro k hk
    exact hall k (by
      unfold alle_indikatoren
      exact List.mem_append_right _ (List.mem_append_right _ (List.mem_append_left _ hk)))
  have hs : ∀ k ∈ systemische_indikatoren, r k = v := by
    intro k hk
    exact hall k (by
      unfold alle_indikatoren
      exact List.mem_append_right _ (List.mem_append_right _ (List.mem_append_right _ hk)))
  obtain ⟨m1, m2, m3, m4⟩ := management_uniform r v hm
  obtain ⟨o1, o2, o3, o4, o5⟩ := ordnung_uniform r v ho
  obtain ⟨e1, e2, e3⟩ := entwicklung_uniform r v he
  obtain ⟨s1, s2, s3⟩ := systemisch_uniform r v hs
  exact ⟨m1, m2, m3, m4, o1, o2, o3, o4, o5, e1, e2, e3, s1, s2, s3⟩

/-! ### Claim theorems -/

/-- C10: the benchmark comparator ignores its first argument: for any
two scores dicts and the same benchmark key and current value, the
returned comparison records are identical. -/
theorem c10_vergleich_ignoriert_scores (s1 s2 : List (String × ℝ))
    (benchmark_key : String) (wert : ℝ) :
    vergleiche_mit_benchmarks s1 benchmark_key wert =
      vergleiche_mit_benchmarks s2 benchmark_key wert := rfl

/-- C6: every dimension score and composite index copied into the
consolidated result of `durchfuehr_komplette_analyse` is exactly the
value obtained by calling the matching standalone aggregator on the
same ratings mapping; no aggregator's output feeds another's. -/
theorem c6_konsolidierung_bitidentisch (r : Ratings) :
    (durchfuehr_komplette_analyse r).normativ_score =
        (analysiere_management_perspektiven r).scores.normativ ∧
    (durchfuehr_komplette_analyse r).strategisch_score =
        (analysiere_management_perspektiven r).scores.strategisch ∧
    (durchfuehr_komplette_analyse r).operativ_score =
        (analysiere_management_perspektiven r).scores.operativ ∧
    (durchfuehr_komplette_analyse r).perspektiven_balance =
        (analysiere_management_perspektiven r).balance ∧
    (durchfuehr_komplette_analyse r).kultur_score =
        (analysiere_ordnungsmomente r).scores.kultur ∧
    (durchfuehr_komplette_analyse r).strukturen_score =
        (analysiere_ordnungsmomente r).scores.strukturen ∧
    (durchfuehr_komplette_analyse r).prozesse_score =
        (analysiere_ordnungsmomente r).scores.prozesse ∧
    (durchfuehr_komplette_analyse r).technologien_score =
        (analysiere_ordnungsmomente r).scores.technologien ∧
    (durchfuehr_komplette_analyse r).ordnungsmomente_kohaerenz =
        (analysiere_ordnungsmomente r).kohaerenz ∧
    (durchfuehr_komplette_analyse r).reflexions_faehigkeit =
        (analysiere_entwicklungsperspektiven r).scores.reflexion ∧
    (durchfuehr_komplette_analyse r).innovations_faehigkeit =
        (analysiere_entwicklungsperspektiven r).scores.innovation ∧
    (durchfuehr_komplette_analyse r).transformations_faehigkeit =
        (analysiere_entwicklungsperspektiven r).scores.transformation ∧
    (durchfuehr_komplette_analyse r).umwelt_sensitivitaet =
        (analysiere_systemische_eigenschaften r).umwelt_sensitivitaet ∧
    (durchfuehr_komplette_analyse r).anpassungs_faehigkeit =
        (analysiere_systemische_eigenschaften r).anpassungs_faehigkeit ∧
    (durchfuehr_komplette_analyse r).widerstands_faehigkeit =
        (analysiere_systemische_eigenschaften r).widerstands_faehigkeit :=
  ⟨rfl, rfl, rfl, rfl, rfl, rfl, rfl, rfl, rfl, rfl, rfl, rfl, rfl, rfl, rfl⟩

/-- C3: for every current value and every benchmark key absent from the
table, the comparator fails soft: optimal defaults to `0.7`, deviation
is `value - 0.7`, source label and finding are empty, and the verdict
follows the strict comparison against `0.7` ("überdurchschnittlich" is
the code's rendering of the spec's "above"). -/
theorem c3_unbekannter_benchmark (scores : List (String × ℝ))
    (benchmark_key : String) (wert : ℝ)
    (habs : dictGet? lade_empirische_benchmarks benchmark_key = none) :
    vergleiche_mit_benchmarks scores benchmark_key wert =
      { aktueller_wert := wert
        optimaler_benchmark := 0.7
        abweichung := wert - 0.7
        interpretation :=
          if (0.7 : ℝ) < wert then "überdurchschnittlich" else "unterdurchschnittlich"
        studie := ""
        empirischer_befund := "" } := by
  simp only [vergleiche_mit_benchmarks, habs]

/-- Witness for C3 at the unregistered key "foo" with value `0.9`:
optimal `0.7`, deviation `0.2`, verdict "above", empty source and
finding, exactly as the claim's scenario demands. -/
theorem c3_witness :
    dictGet? lade_empirische_benchmarks "foo" = none ∧
    vergleiche_mit_benchmarks [] "foo" 0.9 =
      { aktueller_wert := 0.9
        optimaler_benchmark := 0.7
        abweichung := 0.2
        interpretation := "überdurchschnittlich"
        studie := ""
        empirischer_befund := "" } := by
  constructor
  · rfl
  · rw [c3_unbekannter_benchmark [] "foo" 0.9 rfl]
    norm_num

/-- C4: the comparator's deviation is `current - optimal`, the verdict
is "überdurchschnittlich" (the spec's "above") exactly when
`current > optimal` strictly, and equality yields
"unterdurchschnittlich" (the spec's "below"). -/
theorem c4_abweichung_und_verdikt (scores : List (String × ℝ))
    (benchmark_key : String) (wert : ℝ) :
    (vergleiche_mit_benchmarks scores benchmark_key wert).abweichung =
      wert - (vergleiche_mit_benchmarks scores benchmark_key wert).optimaler_benchmark ∧
    ((vergleiche_mit_benchmarks scores benchmark_key wert).interpretation =
        "überdurchschnittlich" ↔
      (vergleiche_mit_benchmarks scores benchmark_key wert).optimaler_benchmark < wert) ∧
    (wert = (vergleiche_mit_benchmarks scores benchmark_key wert).optimaler_benchmark →
      (vergleiche_mit_benchmarks scores benchmark_key wert).interpretation =
        "unterdurchschnittlich") := by
  refine ⟨rfl, ?_, ?_⟩
  · simp only [vergleiche_mit_benchmarks]
    split_ifs with hlt
    · simp [hlt]
    · simp only [hlt, iff_false]
      decide
  · intro heq
    simp only [vergleiche_mit_benchmarks] at heq ⊢
    rw [if_neg]
    rw [heq]
    exact lt_irrefl _

/-- Witness for C4 at the registered key "perspektiven_balance" with
the current value equal to the optimal `0.8`: the verdict is
"unterdurchschnittlich" (equality yields "below"). -/
theorem c4_witness :
    (vergleiche_mit_benchmarks [] "perspektiven_balance" 0.8).interpretation =
      "unterdurchschnittlich" := by
  have h := c4_abweichung_und_verdikt [] "perspektiven_balance" 0.8
  apply h.2.2
  simp only [vergleiche_mit_benchmarks, dictGet?, lade_empirische_benchmarks]
  norm_num

/-- C2 (code bug evidence): the systemic analysis passes the lookup key
"umwelt_sensitivitaet" (ae spelling), which is absent from the benchmark
table, while the table registers "umwelt_sensitivität" (umlaut) with a
non-empty study label and finding.  Hence the returned comparison, here
evaluated at the empty ratings mapping, carries empty source and finding
strings instead of the registered ones (the optimal value 0.7 coincides
with the fallback default). -/
theorem c2_benchmark_schluessel_divergenz :
    (analysiere_systemische_eigenschaften (fun _ => 0)).empirischer_vergleich =
      { aktueller_wert := 0
        optimaler_benchmark := 0.7
        abweichung := -0.7
        interpretation := "unterdurchschnittlich"
        studie := ""
        empirischer_befund := "" } ∧
    dictGet? lade_empirische_benchmarks "umwelt_sensitivitaet" = none ∧
    dictGet? lade_empirische_benchmarks "umwelt_sensitivität" =
      some ⟨0.7, "Ansoff & Sullivan (2021) - Environmental Scanning",
        "Hohe Umweltwahrnehmung korreliert mit 30% besserer Anpassungsfähigkeit"⟩ := by
  refine ⟨?_, rfl, rfl⟩
  have hu : npMean [(0 : ℚ), 0, 0] = 0 := by norm_num [npMean]
  have habs : dictGet? lade_empirische_benchmarks "umwelt_sensitivitaet" = none := rfl
  simp only [analysiere_systemische_eigenschaften, hu, vergleiche_mit_benchmarks, habs]
  norm_num

/-- C1 counterexample: at the empty ratings mapping (all indicators
absent, hence 0) the composite indices are `1`, not `1/3.5` and not
`0.7143` as the claim states (`1 - std/3.5` with zero spread is `1`). -/
theorem c1_counterexample :
    (analysiere_management_perspektiven (fun _ => 0)).balance = 1 ∧
    (analysiere_ordnungsmomente (fun _ => 0)).kohaerenz = 1 ∧
    (1 : ℝ) ≠ 1 / 3.5 ∧ (1 : ℝ) ≠ 0.7143 := by
  have h := alle_uniform (fun _ => 0) 0 (fun k _ => rfl)
  unfold AlleScoresGleich at h
  exact ⟨h.2.2.2.1, h.2.2.2.2.2.2.2.2.1, by norm_num, by norm_num⟩

/-- C1 amended: for every ratings mapping with all indicators set to the
same `v ∈ [1,7]`, every dimension score of the four aggregators equals
`v`; for the empty mapping every dimension score is `0`; in both cases
the composite indices balance and coherence equal `1` (zero spread gives
`1 - 0/3.5 = 1`, not `1/3.5`). -/
theorem c1_amended (v : ℚ) (r : Ratings) (h1 : 1 ≤ v) (h7 : v ≤ 7)
    (hall : ∀ k ∈ alle_indikatoren, r k = v) :
    AlleScoresGleich r v ∧ AlleScoresGleich (fun _ => 0) 0 :=
  ⟨alle_uniform r v hall, alle_uniform _ 0 (fun k _ => rfl)⟩

/-- Witness for the amended C1 at the constant ratings mapping `v = 4`. -/
theorem c1_witness :
    (1 : ℚ) ≤ 4 ∧ (4 : ℚ) ≤ 7 ∧
    (∀ k ∈ alle_indikatoren, konstanteAntworten 4 k = 4) ∧
    (AlleScoresGleich (konstanteAntworten 4) 4 ∧ AlleScoresGleich (fun _ => 0) 0) :=
  ⟨by norm_num, by norm_num, fun k _ => rfl,
    c1_amended 4 (konstanteAntworten 4) (by norm_num) (by norm_num) (fun k _ => rfl)⟩

/-- C5: for the scenario ratings (normative indicators 7, strategic and
operational indicators 1) the management analysis yields scores
7.0/1.0/1.0, balance `1 - std([7,1,1])/3.5 = 1 - sqrt(8)/3.5`, which
lies strictly between 0.191 and 0.192 (so "approximately 0.192"), and
dominant perspective "normativ". -/
theorem c5_szenario :
    (analysiere_management_perspektiven szenarioAntworten).scores.normativ = 7 ∧
    (analysiere_management_perspektiven szenarioAntworten).scores.strategisch = 1 ∧
    (analysiere_management_perspektiven szenarioAntworten).scores.operativ = 1 ∧
    (analysiere_management_perspektiven szenarioAntworten).balance =
      1 - Real.sqrt 8 / 3.5 ∧
    0.191 < (analysiere_management_perspektiven szenarioAntworten).balance ∧
    (analysiere_management_perspektiven szenarioAntworten).balance < 0.192 ∧
    (analysiere_management_perspektiven szenarioAntworten).dominante_perspektive =
      "normativ" := by
  have k01 : szenarioAntworten "wertekongruenz" = 7 := rfl
  have k02 : szenarioAntworten "sinnstiftung" = 7 := rfl
  have k03 : szenarioAntworten "identitaetsbeitrag" = 7 := rfl
  have k04 : szenarioAntworten "legitimitaet" = 7 := rfl
  have k05 : szenarioAntworten "wettbewerbsvorteil" = 1 := rfl
  have k06 : szenarioAntworten "marktrelevanz" = 1 := rfl
  have k07 : szenarioAntworten "ressourcenpassung" = 1 := rfl
  have k08 : szenarioAntworten "zukunftsfaehigkeit" = 1 := rfl
  have k09 : szenarioAntworten "prozesseffizienz" = 1 := rfl
  have k10 : szenarioAntworten "ressourcenoptimierung" = 1 := rfl
  have k11 : szenarioAntworten "qualitaetssicherung" = 1 := rfl
  have k12 : szenarioAntworten "skalierbarkeit" = 1 := rfl
  have hmean7 : npMean [(7 : ℚ), 7, 7, 7] = 7 := by norm_num [npMean]
  have hmean1 : npMean [(1 : ℚ), 1, 1, 1] = 1 := by norm_num [npMean]
  have hvar : npVariance [(7 : ℚ), 1, 1] = 8 := by norm_num [npVariance, npMean]
  have hstd : npStd [(7 : ℚ), 1, 1] = Real.sqrt 8 := by
    rw [npStd, hvar]; norm_num
  have hub : Real.sqrt 8 < 2.8315 := by
    rw [Real.sqrt_lt' (by norm_num)]; norm_num
  have hlb : (2.828 : ℝ) < Real.sqrt 8 := by
    rw [Real.lt_sqrt (by norm_num)]; norm_num
  refine ⟨?_, ?_, ?_, ?_, ?_, ?_, ?_⟩
  · simp [analysiere_management_perspektiven, k01, k02, k03, k04, hmean7]
  · simp [analysiere_management_perspektiven, k05, k06, k07, k08, hmean1]
  · simp [analysiere_management_perspektiven, k09, k10, k11, k12, hmean1]
  · simp only [analysiere_management_perspektiven, PerspektivenScores.werte,
      k01, k02, k03, k04, k05, k06, k07, k08, k09, k10, k11, k12,
      hmean7, hmean1, hstd]
  · simp only [analysiere_management_perspektiven, PerspektivenScores.werte,
      k01, k02, k03, k04, k05, k06, k07, k08, k09, k10, k11, k12,
      hmean7, hmean1, hstd]
    norm_num at hub hlb ⊢
    linarith
  · simp only [analysiere_management_perspektiven, PerspektivenScores.werte,
      k01, k02, k03, k04, k05, k06, k07, k08, k09, k10, k11, k12,
      hmean7, hmean1, hstd]
    norm_num at hub hlb ⊢
    linarith
  · simp only [analysiere_management_perspektiven, PerspektivenScores.eintraege,
      k01, k02, k03, k04, k05, k06, k07, k08, k09, k10, k11, k12,
      hmean7, hmean1]
    exact maxKey3_first "normativ" "strategisch" "operativ" 7 1 1
      (by norm_num) (by norm_num)

/-- C7: the dominant perspective is always one of the three declared
perspective keys, the weakest/strongest order elements are always one of
the four declared element keys, and ties are resolved to the first key
in the insertion order of the scores dict (normativ before strategisch
before operativ; kultur before strukturen before prozesse before
technologien): a later key is selected only when it strictly beats every
earlier key and weakly beats every later key. -/
theorem c7_auswahl_schluessel (r : Ratings) :
    ((analysiere_management_perspektiven r).dominante_perspektive = "normativ" ∨
      (analysiere_management_perspektiven r).dominante_perspektive = "strategisch" ∨
      (analysiere_management_perspektiven r).dominante_perspektive = "operativ") ∧
    ((analysiere_ordnungsmomente r).schwaechstes_ordnungselement = "kultur" ∨
      (analysiere_ordnungsmomente r).schwaechstes_ordnungselement = "strukturen" ∨
      (analysiere_ordnungsmomente r).schwaechstes_ordnungselement = "prozesse" ∨
      (analysiere_ordnungsmomente r).schwaechstes_ordnungselement = "technologien") ∧
    ((analysiere_ordnungsmomente r).staerkstes_ordnungselement = "kultur" ∨
      (analysiere_ordnungsmomente r).staerkstes_ordnungselement = "strukturen" ∨
      (analysiere_ordnungsmomente r).staerkstes_ordnungselement = "prozesse" ∨
      (analysiere_ordnungsmomente r).staerkstes_ordnungselement = "technologien") ∧
    ((analysiere_management_perspektiven r).scores.strategisch ≤
        (analysiere_management_perspektiven r).scores.normativ →
      (analysiere_management_perspektiven r).scores.operativ ≤
        (analysiere_management_perspektiven r).scores.normativ →
      (analysiere_management_perspektiven r).dominante_perspektive = "normativ") ∧
    ((analysiere_management_perspektiven r).scores.normativ <
        (analysiere_management_perspektiven r).scores.strategisch →
      (analysiere_management_perspektiven r).scores.operativ ≤
        (analysiere_management_perspektiven r).scores.strategisch →
      (analysiere_management_perspektiven r).dominante_perspektive = "strategisch") ∧
    ((analysiere_management_perspektiven r).scores.normativ <
        (analysiere_management_perspektiven r).scores.operativ →
      (analysiere_management_perspektiven r).scores.strategisch <
        (analysiere_management_perspektiven r).scores.operativ →
      (analysiere_management_perspektiven r).dominante_perspektive = "operativ") ∧
    ((analysiere_ordnungsmomente r).scores.kultur ≤
        (analysiere_ordnungsmomente r).scores.strukturen →
      (analysiere_ordnungsmomente r).scores.kultur ≤
        (analysiere_ordnungsmomente r).scores.prozesse →
      (analysiere_ordnungsmomente r).scores.kultur ≤
        (analysiere_ordnungsmomente r).scores.technologien →
      (analysiere_ordnungsmomente r).schwaechstes_ordnungselement = "kultur") ∧
    ((analysiere_ordnungsmomente r).scores.strukturen <
        (analysiere_ordnungsmomente r).scores.kultur →
      (analysiere_ordnungsmomente r).scores.strukturen ≤
        (analysiere_ordnungsmomente r).scores.prozesse →
      (analysiere_ordnungsmomente r).scores.strukturen ≤
        (analysiere_ordnungsmomente r).scores.technologien →
      (analysiere_ordnungsmomente r).schwaechstes_ordnungselement = "strukturen") ∧
    ((analysiere_ordnungsmomente r).scores.prozesse <
        (analysiere_ordnungsmomente r).scores.kultur →
      (analysiere_ordnungsmomente r).scores.prozesse <
        (analysiere_ordnungsmomente r).scores.strukturen →
      (analysiere_ordnungsmomente r).scores.prozesse ≤
        (analysiere_ordnungsmomente r).scores.technologien →
      (analysiere_ordnungsmomente r).schwaechstes_ordnungselement = "prozesse") ∧
    ((analysiere_ordnungsmomente r).scores.technologien <
        (analysiere_ordnungsmomente r).scores.kultur →
      (analysiere_ordnungsmomente r).scores.technologien <
        (analysiere_ordnungsmomente r).scores.strukturen →
      (analysiere_ordnungsmomente r).scores.technologien <
        (analysiere_ordnungsmomente r).scores.prozesse →
      (analysiere_ordnungsmomente r).schwaechstes_ordnungselement = "technologien") ∧
    ((analysiere_ordnungsmomente r).scores.strukturen ≤
        (analysiere_ordnungsmomente r).scores.kultur →
      (analysiere_ordnungsmomente r).scores.prozesse ≤
        (analysiere_ordnungsmomente r).scores.kultur →
      (analysiere_ordnungsmomente r).scores.technologien ≤
        (analysiere_ordnungsmomente r).scores.kultur →
      (analysiere_ordnungsmomente r).staerkstes_ordnungselement = "kultur") ∧
    ((analysiere_ordnungsmomente r).scores.kultur <
        (analysiere_ordnungsmomente r).scores.strukturen →
      (analysiere_ordnungsmomente r).scores.prozesse ≤
        (analysiere_ordnungsmomente r).scores.strukturen →
      (analysiere_ordnungsmomente r).scores.technologien ≤
        (analysiere_ordnungsmomente r).scores.strukturen →
      (analysiere_ordnungsmomente r).staerkstes_ordnungselement = "strukturen") ∧
    ((analysiere_ordnungsmomente r).scores.kultur <
        (analysiere_ordnungsmomente r).scores.prozesse →
      (analysiere_ordnungsmomente r).scores.strukturen <
        (analysiere_ordnungsmomente r).scores.prozesse →
      (analysiere_ordnungsmomente r).scores.technologien ≤
        (analysiere_ordnungsmomente r).scores.prozesse →
      (analysiere_ordnungsmomente r).staerkstes_ordnungselement = "prozesse") ∧
    ((analysiere_ordnungsmomente r).scores.kultur <
        (analysiere_ordnungsmomente r).scores.technologien →
      (analysiere_ordnungsmomente r).scores.strukturen <
        (analysiere_ordnungsmomente r).scores.technologien →
      (analysiere_ordnungsmomente r).scores.prozesse <
        (analysiere_ordnungsmomente r).scores.technologien →
      (analysiere_ordnungsmomente r).staerkstes_ordnungselement = "technologien") := by
  have hd : (analysiere_management_perspektiven r).dominante_perspektive =
      maxKey (PerspektivenScores.eintraege (analysiere_management_perspektiven r).scores) :=
    rfl
  have hw : (analysiere_ordnungsmomente r).schwaechstes_ordnungselement =
      minKey (OrdnungsScores.eintraege (analysiere_ordnungsmomente r).scores) := rfl
  have hs : (analysiere_ordnungsmomente r).staerkstes_ordnungselement =
      maxKey (OrdnungsScores.eintraege (analysiere_ordnungsmomente r).scores) := rfl
  rw [hd, hw, hs, PerspektivenScores.eintraege, OrdnungsScores.eintraege]
  refine ⟨maxKey3_mem _ _ _ _ _ _, minKey4_mem _ _ _ _ _ _ _ _,
    maxKey4_mem _ _ _ _ _ _ _ _, ?_, ?_, ?_, ?_, ?_, ?_, ?_, ?_, ?_, ?_, ?_⟩
  · exact fun h1 h2 => maxKey3_first _ _ _ _ _ _ h1 h2
  · exact fun h1 h2 => maxKey3_second _ _ _ _ _ _ h1 h2
  · exact fun h1 h2 => maxKey3_third _ _ _ _ _ _ h1 h2
  · exact fun h1 h2 h3 => minKey4_first _ _ _ _ _ _ _ _ h1 h2 h3
  · exact fun h1 h2 h3 => minKey4_second _ _ _ _ _ _ _ _ h1 h2 h3
  · exact fun h1 h2 h3 => minKey4_third _ _ _ _ _ _ _ _ h1 h2 h3
  · exact fun h1 h2 h3 => minKey4_fourth _ _ _ _ _ _ _ _ h1 h2 h3
  · exact fun h1 h2 h3 => maxKey4_first _ _ _ _ _ _ _ _ h1 h2 h3
  · exact fun h1 h2 h3 => maxKey4_second _ _ _ _ _ _ _ _ h1 h2 h3
  · exact fun h1 h2 h3 => maxKey4_third _ _ _ _ _ _ _ _ h1 h2 h3
  · exact fun h1 h2 h3 => maxKey4_fourth _ _ _ _ _ _ _ _ h1 h2 h3

/-- Witness for C7 at the constant ratings mapping `v = 4`: all scores
tie, so every selection falls back to the first key in insertion order
("normativ" and "kultur" respectively). -/
theorem c7_witness :
    (analysiere_management_perspektiven (konstanteAntworten 4)).dominante_perspektive =
      "normativ" ∧
    (analysiere_ordnungsmomente (konstanteAntworten 4)).schwaechstes_ordnungselement =
      "kultur" ∧
    (analysiere_ordnungsmomente (konstanteAntworten 4)).staerkstes_ordnungselement =
      "kultur" := by
  have h := c7_auswahl_schluessel (konstanteAntworten 4)
  obtain ⟨m1, m2, m3, -⟩ := management_uniform (konstanteAntworten 4) 4 (fun k _ => rfl)
  obtain ⟨o1, o2, o3, o4, -⟩ := ordnung_uniform (konstanteAntworten 4) 4 (fun k _ => rfl)
  obtain ⟨-, -, -, hdom, -, -, hwk, -, -, -, hsk, -, -, -⟩ := h
  exact ⟨hdom (le_of_eq (m2.trans m1.symm)) (le_of_eq (m3.trans m1.symm)),
    hwk (le_of_eq (o1.trans o2.symm)) (le_of_eq (o1.trans o3.symm))
      (le_of_eq (o1.trans o4.symm)),
    hsk (le_of_eq (o2.trans o1.symm)) (le_of_eq (o3.trans o1.symm))
      (le_of_eq (o4.trans o1.symm))⟩

/-- C8: the development profile is the label of the maximal development
score, ties resolved to the first key in insertion order (reflexion
before innovation before transformation).  The code's labels are the
German originals which the spec renders in English: "Lernende
Organisation" = "Learning Organization", "Innovative Organisation" =
"Innovative Organization", "Transformative Organisation" =
"Transformative Organization". -/
theorem c8_entwicklungs_profil (r : Ratings) :
    ((analysiere_entwicklungsperspektiven r).scores.innovation ≤
        (analysiere_entwicklungsperspektiven r).scores.reflexion →
      (analysiere_entwicklungsperspektiven r).scores.transformation ≤
        (analysiere_entwicklungsperspektiven r).scores.reflexion →
      (analysiere_entwicklungsperspektiven r).entwicklungs_profil =
        "Lernende Organisation") ∧
    ((analysiere_entwicklungsperspektiven r).scores.reflexion <
        (analysiere_entwicklungsperspektiven r).scores.innovation →
      (analysiere_entwicklungsperspektiven r).scores.transformation ≤
        (analysiere_entwicklungsperspektiven r).scores.innovation →
      (analysiere_entwicklungsperspektiven r).entwicklungs_profil =
        "Innovative Organisation") ∧
    ((analysiere_entwicklungsperspektiven r).scores.reflexion <
        (analysiere_entwicklungsperspektiven r).scores.transformation →
      (analysiere_entwicklungsperspektiven r).scores.innovation <
        (analysiere_entwicklungsperspektiven r).scores.transformation →
      (analysiere_entwicklungsperspektiven r).entwicklungs_profil =
        "Transformative Organisation") := by
  have hp : (analysiere_entwicklungsperspektiven r).entwicklungs_profil =
      (dictGet? entwicklungs_profile
        (maxKey (EntwicklungsScores.eintraege
          (analysiere_entwicklungsperspektiven r).scores))).getD
        "Ausgeglichene Organisation" := rfl
  rw [hp, EntwicklungsScores.eintraege]
  refine ⟨?_, ?_, ?_⟩
  · intro h1 h2
    rw [maxKey3_first _ _ _ _ _ _ h1 h2]
    rfl
  · intro h1 h2
    rw [maxKey3_second _ _ _ _ _ _ h1 h2]
    rfl
  · intro h1 h2
    rw [maxKey3_third _ _ _ _ _ _ h1 h2]
    rfl

/-- Witness for C8 at the constant ratings mapping `v = 4`: all three
development scores tie, so the first key (reflexion) wins and the
profile is "Lernende Organisation". -/
theorem c8_witness :
    (analysiere_entwicklungsperspektiven (konstanteAntworten 4)).entwicklungs_profil =
      "Lernende Organisation" := by
  obtain ⟨e1, e2, e3⟩ := entwicklung_uniform (konstanteAntworten 4) 4 (fun k _ => rfl)
  exact (c8_entwicklungs_profil (konstanteAntworten 4)).1
    (le_of_eq (e2.trans e1.symm)) (le_of_eq (e3.trans e1.symm))

/-- C9: the fallback label "Ausgeglichene Organisation" ("Balanced
Organization") is never returned: the first-maximum selection always
yields one of the three declared development keys, each of which is
mapped to its own label, so the dict-get default is dead. -/
theorem c9_fallback_unerreichbar (r : Ratings) :
    (analysiere_entwicklungsperspektiven r).entwicklungs_profil ≠
      "Ausgeglichene Organisation" := by
  have hp : (analysiere_entwicklungsperspektiven r).entwicklungs_profil =
      (dictGet? entwicklungs_profile
        (maxKey (EntwicklungsScores.eintraege
          (analysiere_entwicklungsperspektiven r).scores))).getD
        "Ausgeglichene Organisation" := rfl
  rw [hp, EntwicklungsScores.eintraege]
  rcases maxKey3_mem "reflexion" "innovation" "transformation"
      (analysiere_entwicklungsperspektiven r).scores.reflexion
      (analysiere_entwicklungsperspektiven r).scores.innovation
      (analysiere_entwicklungsperspektiven r).scores.transformation with h | h | h <;>
    rw [h] <;> decide

/-- Witness for C9 at the constant ratings mapping `v = 4`: the profile
there is not the fallback label. -/
theorem c9_witness :
    (analysiere_entwicklungsperspektiven (konstanteAntworten 4)).entwicklungs_profil ≠
      "Ausgeglichene Organisation" :=
  c9_fallback_unerreichbar (konstanteAntworten 4)
